import Mathlib

/-!
Verification of the SyncStream client-side synchronization engine
(src/static/script.js) against its natural-language specification.

The JavaScript client is embedded shallowly:
- the ambient mutable globals (socket, isRemoteAction, lastSentSeek,
  pingInterval, syncInterval, latency, queue, currentMedia, isHost, and the
  direct-file media element's position/paused state) become one record
  `ClientState`;
- every event handler (the `handleMessage` dispatch, the socket lifecycle
  callbacks, the media-element listeners installed by `loadMedia`, and
  `onYTStateChange`) becomes a pure function from `ClientState` to a new
  `ClientState` paired with the list of externally visible actions it
  performs, in program order (`Act` for adapter calls / sends / toasts,
  `OutMsg` for outbound protocol messages);
- timestamps (`Date.now()`) are integer milliseconds passed in as a `now`
  parameter; playback positions and the latency estimate are rationals
  (JS numbers, used here only through arithmetic and comparisons);
- `setTimeout(() => isRemoteAction = false, 100)` is recorded as the action
  `Act.scheduleClearSuppress 100`, the handler's post-state keeping the
  flag set, exactly as at the moment the handler returns.
-/

namespace SyncStream

/-- Media backend variants, from `loadMedia`'s dispatch on `media.type`. -/
inductive MediaType
  | youtube
  | twitch_vod
  | twitch_live
  | direct
deriving DecidableEq

/-- A queued media item as it appears on the wire (`{type, id or url, display?}`). -/
structure MediaItem where
  mtype : MediaType
  idOrUrl : String
  display : Option String
deriving DecidableEq

/-- Client → relay messages, from the `socket.send(JSON.stringify(...))` sites. -/
inductive OutMsg
  | join (nick : String)
  | ping (t : Nat)
  | queueAdd (url : String) (nick : String)
  | skip (nick : String)
  | chatMsg (text : String) (nick : String)
  | play (position : ℚ) (nick : String)
  | pause (position : ℚ) (nick : String)
  | seek (position : ℚ)
  | ended
  | host_position (position : ℚ)
  | sync_request
deriving DecidableEq

/-- Relay → client messages, the cases of `handleMessage`'s switch. -/
inductive InMsg
  | pong (t : Nat)
  | state (viewers : Nat) (queue : List MediaItem) (isHost : Bool)
      (current : Option MediaItem) (position : ℚ) (playing : Bool)
  | host_update (isHost : Bool)
  | load (queue : List MediaItem) (current : Option MediaItem)
  | queue_update (queue : List MediaItem) (nick : Option String)
  | play (position : ℚ) (nick : Option String)
  | pause (position : ℚ) (nick : Option String)
  | seek (position : ℚ)
  | sync_response (position : ℚ) (playing : Bool)
  | viewers (count : Nat)
  | chat (nick : String) (text : String)
  | system (text : String)
deriving DecidableEq

/-- Visual connection status, from `setStatus(text, state)`. -/
inductive StatusKind
  | disconnected
  | connected
  | error
deriving DecidableEq

structure Status where
  text : String
  kind : StatusKind
deriving DecidableEq

/-- One rendered chat transcript entry (a child of `chatMessages`). -/
structure ChatEntry where
  nick : Option String
  text : String
  isSystem : Bool
deriving DecidableEq

/-- Externally visible effects of a handler, in program order. -/
inductive Act
  | setSuppress
  | scheduleClearSuppress (ms : Nat)
  | seekToAct (t : ℚ)
  | playAct
  | pauseAct
  | send (m : OutMsg)
  | toast (msg : String)
  | loadMediaAct (m : MediaItem)
  | clearPlayerAct
  | closeSocket
  | openConnection (code : String)
deriving DecidableEq

/-- The client's mutable globals, consolidated. `syncTimer = some true` is the
host-reporting interval, `some false` the non-host sync-polling interval,
`none` no cadence timer; the source keeps at most one because the single
variable `syncInterval` is always `clearInterval`ed before being reassigned. -/
structure ClientState where
  socketPresent : Bool
  socketOpen : Bool
  isRemoteAction : Bool
  lastSentSeek : Nat
  pingActive : Bool
  syncTimer : Option Bool
  latency : ℚ
  queue : List MediaItem
  currentMedia : Option MediaItem
  isHost : Bool
  position : ℚ
  paused : Bool
  status : Status
  viewersText : String
  transcript : List ChatEntry
deriving DecidableEq

/-- `SYNC_TOLERANCE = 3.0` (seconds). -/
def SYNC_TOLERANCE : ℚ := 3

/-- `playMedia()` on the direct-file backend: the element leaves the paused state. -/
def playMedia (s : ClientState) : ClientState := { s with paused := false }

/-- `pauseMedia()` on the direct-file backend. -/
def pauseMedia (s : ClientState) : ClientState := { s with paused := true }

/-- `seekTo(time)` on the direct-file backend: sets `currentTime`. -/
def seekTo (s : ClientState) (t : ℚ) : ClientState := { s with position := t }

/-- `getPosition()`. -/
def getPosition (s : ClientState) : ℚ := s.position

/-- `isPaused()`. -/
def isPaused (s : ClientState) : Bool := s.paused

/-- JS truthiness of an optional string field (`msg.nick ? ... : ...`):
absent, null and the empty string are falsy. -/
def truthy : Option String → Bool
  | some n => n ≠ ""
  | none => false

/-- Toast text of the inbound `play` case. -/
def playToast (nick : Option String) : String :=
  if truthy nick then nick.getD "" ++ " played" else "Playing"

/-- Toast text of the inbound `pause` case. -/
def pauseToast (nick : Option String) : String :=
  if truthy nick then nick.getD "" ++ " paused" else "Paused"

/-- Viewer-count display text: `msg.viewers + ' viewer' + (viewers === 1 ? '' : 's')`. -/
def viewersLabel (n : Nat) : String :=
  toString n ++ " viewer" ++ (if n = 1 then "" else "s")

/-- The trimming loop of `addChatMessage`:
`while (chatMessages.children.length > 100) chatMessages.removeChild(chatMessages.firstChild)`. -/
def trimTranscript : List ChatEntry → List ChatEntry
  | [] => []
  | x :: xs => if (x :: xs).length > 100 then trimTranscript xs else x :: xs

/-- `addChatMessage(nick, text, isSystem)`: append one entry, then trim from
the front down to 100 entries. -/
def addChatMessage (s : ClientState) (nick : Option String) (text : String)
    (isSystem : Bool) : ClientState :=
  { s with transcript :=
      trimTranscript (s.transcript ++ [⟨nick, text, isSystem⟩]) }

/-- `updateHostIndicator()`: refreshes the status line when the socket is open. -/
def updateHostIndicator (s : ClientState) : ClientState :=
  if s.socketOpen then
    { s with status := ⟨"Connected" ++ (if s.isHost then " (Host)" else ""), .connected⟩ }
  else s

/-- `startSyncIntervals()`: `clearInterval(syncInterval)` then install the
role-appropriate repeating timer (host position reporting when `isHost`,
sync polling otherwise). -/
def startSyncIntervals (s : ClientState) : ClientState :=
  { s with syncTimer := some s.isHost }

/-- `handleMessage(msg)`, at time `now` (= `Date.now()`), on the direct-file
backend. Returns the post-state and the actions performed, in order. -/
def handleMessage (s : ClientState) (msg : InMsg) (now : Nat) :
    ClientState × List Act :=
  match msg with
  | .pong t => ({ s with latency := ((now : ℚ) - (t : ℚ)) / 2 }, [])
  | .state viewers q hostFlag current pos playing =>
      let s1 := { s with viewersText := viewersLabel viewers,
                         queue := q, isHost := hostFlag }
      let s2 := startSyncIntervals (updateHostIndicator s1)
      match current with
      | some m =>
          let s3 := { s2 with currentMedia := some m }
          let r4 := if pos > 0 then (seekTo s3 pos, [Act.seekToAct pos]) else (s3, [])
          let r5 := if playing then (playMedia r4.1, r4.2 ++ [Act.playAct]) else r4
          (r5.1, Act.loadMediaAct m :: r5.2)
      | none => (s2, [])
  | .host_update h =>
      let wasHost := s.isHost
      let s1 := updateHostIndicator { s with isHost := h }
      if wasHost ≠ h then
        (startSyncIntervals s1, if h then [Act.toast "You are now the host"] else [])
      else (s1, [])
  | .load q current =>
      let s1 := { s with queue := q }
      match current with
      | some m => ({ s1 with currentMedia := some m },
                   [Act.loadMediaAct m, Act.toast "Now playing"])
      | none => ({ s1 with currentMedia := none },
                 [Act.clearPlayerAct, Act.toast "Queue empty"])
  | .queue_update q nick =>
      let s1 := { s with queue := q }
      if truthy nick then
        (addChatMessage s1 none (nick.getD "" ++ " added to queue") true, [])
      else (s1, [])
  | .play p nick =>
      let target := p + s.latency / 1000
      let s1 := playMedia (seekTo { s with isRemoteAction := true } target)
      (s1, [Act.setSuppress, Act.seekToAct target, Act.playAct,
            Act.toast (playToast nick), Act.scheduleClearSuppress 100])
  | .pause p nick =>
      let s1 := seekTo (pauseMedia { s with isRemoteAction := true }) p
      (s1, [Act.setSuppress, Act.pauseAct, Act.seekToAct p,
            Act.toast (pauseToast nick), Act.scheduleClearSuppress 100])
  | .seek p =>
      if |getPosition s - p| > SYNC_TOLERANCE then
        (seekTo { s with isRemoteAction := true } p,
         [Act.setSuppress, Act.seekToAct p, Act.toast "Synced",
          Act.scheduleClearSuppress 100])
      else (s, [])
  | .sync_response p playing =>
      if !s.isHost && s.currentMedia.isSome then
        let diff := |getPosition s - p|
        let r1 :=
          if diff > SYNC_TOLERANCE then
            (seekTo { s with isRemoteAction := true } p,
             [Act.setSuppress, Act.seekToAct p, Act.toast "Synced to host",
              Act.scheduleClearSuppress 100])
          else (s, ([] : List Act))
        let r2 :=
          if playing && isPaused r1.1 then
            (playMedia { r1.1 with isRemoteAction := true },
             r1.2 ++ [Act.setSuppress, Act.playAct, Act.scheduleClearSuppress 100])
          else if !playing && !isPaused r1.1 then
            (pauseMedia { r1.1 with isRemoteAction := true },
             r1.2 ++ [Act.setSuppress, Act.pauseAct, Act.scheduleClearSuppress 100])
          else r1
        r2
      else (s, [])
  | .viewers count => ({ s with viewersText := viewersLabel count }, [])
  | .chat nick text => (addChatMessage s (some nick) text false, [])
  | .system text => (addChatMessage s none text true, [])

/-- An ASCII whitespace character as removed by JS `String.prototype.trim`
(space, tab, line feed, carriage return; the full JS set also has rarer
Unicode spaces, irrelevant to 6-character room codes). -/
def isJsSpace (c : Char) : Bool :=
  c = Char.ofNat 32 || c = Char.ofNat 9 || c = Char.ofNat 10 || c = Char.ofNat 13

/-- JS `value.trim()`: strip whitespace from both ends. -/
def jsTrim (s : String) : String :=
  String.mk (((s.toList.dropWhile isJsSpace).reverse.dropWhile isJsSpace).reverse)

/-- An uppercase-alphanumeric character, i.e. one of `0-9A-Z`
(code points 48–57 and 65–90). -/
def isUpperAlnum (c : Char) : Bool :=
  (Char.ofNat 48 ≤ c && c ≤ Char.ofNat 57) || (Char.ofNat 65 ≤ c && c ≤ Char.ofNat 90)

/-- The fixed room-code format the spec names: exactly 6 uppercase
alphanumeric characters. -/
def isValidRoomCode (c : String) : Bool :=
  c.length = 6 && c.toList.all isUpperAlnum

/-- The room-input field's `input` listener:
`value.toUpperCase().replace(non-alnum, '').slice(0, 6)`. -/
def sanitizeRoomInput (s : String) : String :=
  String.mk (((s.toList.map Char.toUpper).filter isUpperAlnum).take 6)

/-- `connect()`: reads the (trimmed) room code; rejects with a visible error
and no connection attempt when it is not 6 characters long; otherwise closes
any prior socket and opens a new WebSocket at the per-room endpoint. -/
def connect (s : ClientState) (raw : String) : ClientState × List Act :=
  let code := jsTrim raw
  if code.length ≠ 6 then
    ({ s with status := ⟨"Enter 6-char code", .error⟩ }, [])
  else
    ({ s with status := ⟨"Connecting...", .disconnected⟩,
              socketPresent := true, socketOpen := false },
     (if s.socketPresent then [Act.closeSocket] else []) ++
       [Act.openConnection code])

/-- `socket.onopen`: status Connected, join announcement, heartbeat timer
installed plus one immediate ping. -/
def onSocketOpen (s : ClientState) (nick : String) (now : Nat) :
    ClientState × List Act :=
  ({ s with socketOpen := true, pingActive := true,
            status := ⟨"Connected", .connected⟩ },
   [Act.send (.join nick), Act.send (.ping now)])

/-- `socket.onclose`: clears the heartbeat and cadence timers, resets the
role to non-host, shows Disconnected. No reconnection is attempted. -/
def onSocketClose (s : ClientState) : ClientState × List Act :=
  ({ s with socketOpen := false, pingActive := false, syncTimer := none,
            isHost := false, status := ⟨"Disconnected", .disconnected⟩ }, [])

/-- `socket.onerror`: `setStatus('Connection failed', 'error')` and nothing
else. -/
def onSocketError (s : ClientState) : ClientState × List Act :=
  ({ s with status := ⟨"Connection failed", .error⟩ }, [])

/-- The direct-file element's `play` listener installed by `loadMedia`:
forwards an outbound `play` unless suppressed or the socket is not open. -/
def videoOnPlay (s : ClientState) (nick : String) : ClientState × List OutMsg :=
  if !s.isRemoteAction && s.socketOpen then
    (s, [.play (getPosition s) nick])
  else (s, [])

/-- The direct-file element's `pause` listener installed by `loadMedia`. -/
def videoOnPause (s : ClientState) (nick : String) : ClientState × List OutMsg :=
  if !s.isRemoteAction && s.socketOpen then
    (s, [.pause (getPosition s) nick])
  else (s, [])

/-- The direct-file element's `seeked` listener installed by `loadMedia`:
forwards an outbound `seek` only when not suppressed, the socket is open,
and `now - lastSentSeek > 300` (the scrubbing debounce). -/
def videoOnSeeked (s : ClientState) (now : Nat) : ClientState × List OutMsg :=
  if !s.isRemoteAction && s.socketOpen && now - s.lastSentSeek > 300 then
    ({ s with lastSentSeek := now }, [.seek (getPosition s)])
  else (s, [])

/-- The direct-file element's `ended` listener installed by `loadMedia`. -/
def videoOnEnded (s : ClientState) : ClientState × List OutMsg :=
  if s.socketOpen then (s, [.ended]) else (s, [])

/-- YouTube player state values as compared against in `onYTStateChange`. -/
inductive YTState
  | playing
  | pausedState
  | endedState
  | other
deriving DecidableEq

/-- `onYTStateChange(e)`: returns immediately under suppression or without an
open socket, else forwards the matching outbound message (`ytPos` stands for
`ytPlayer.getCurrentTime()`). -/
def onYTStateChange (s : ClientState) (e : YTState) (ytPos : ℚ) (nick : String) :
    List OutMsg :=
  if s.isRemoteAction || !s.socketOpen then []
  else
    match e with
    | .playing => [.play ytPos nick]
    | .pausedState => [.pause ytPos nick]
    | .endedState => [.ended]
    | .other => []

/-- The initial values of the script's globals. -/
def initState : ClientState :=
  { socketPresent := false, socketOpen := false, isRemoteAction := false,
    lastSentSeek := 0, pingActive := false, syncTimer := none, latency := 0,
    queue := [], currentMedia := none, isHost := false, position := 0,
    paused := true, status := ⟨"", .disconnected⟩, viewersText := "",
    transcript := [] }

/-- The engine's event alphabet: inbound protocol messages and socket
lifecycle callbacks, plus explicit reconnect invocations. -/
inductive Event
  | inbound (m : InMsg) (now : Nat)
  | opened (nick : String) (now : Nat)
  | closed
  | errored
  | reconnect (raw : String)

/-- One event-loop step (the state part of the corresponding handler). -/
def step (s : ClientState) : Event → ClientState
  | .inbound m now => (handleMessage s m now).1
  | .opened nick now => (onSocketOpen s nick now).1
  | .closed => (onSocketClose s).1
  | .errored => (onSocketError s).1
  | .reconnect raw => (connect s raw).1

/-- Run a sequence of events from a state. -/
def run (s : ClientState) (evs : List Event) : ClientState :=
  evs.foldl step s

/-- The cadence invariant: the single timer slot, when occupied, holds the
timer matching the current role (host reporting exactly when `isHost`). -/
def cadenceOK (s : ClientState) : Prop :=
  ∀ b, s.syncTimer = some b → b = s.isHost

/-! ## Supporting lemmas -/

/-- The `addChatMessage` trimming loop drops exactly the overflow from the
front of the list. -/
theorem trimTranscript_eq_drop (l : List ChatEntry) :
    trimTranscript l = l.drop (l.length - 100) := by
  induction l with
  | nil => rfl
  | cons x xs ih =>
      rw [trimTranscript]
      by_cases h : (x :: xs).length > 100
      · rw [if_pos h, ih]
        have h1 : (x :: xs).length - 100 = (xs.length - 100) + 1 := by
          simp only [List.length_cons] at h ⊢
          omega
        rw [h1, List.drop_succ_cons]
      · rw [if_neg h]
        have h0 : (x :: xs).length - 100 = 0 := by
          simp only [List.length_cons] at h ⊢
          omega
        rw [h0, List.drop_zero]

/-! ## Claims -/

/-- **C1.** For every inbound remote-seek message: when the drift between the
local playback position and the asserted position is at most 3.0 s, no seek is
issued and the playback state is unchanged; when the drift exceeds 3.0 s the
handler performs exactly one seek, to the asserted position, with the
suppression flag set before the seek and its clearing scheduled 100 ms
later. -/
theorem remote_seek_tolerance (s : ClientState) (p : ℚ) (now : Nat) :
    (|s.position - p| ≤ SYNC_TOLERANCE →
      handleMessage s (InMsg.seek p) now = (s, [])) ∧
    (|s.position - p| > SYNC_TOLERANCE →
      handleMessage s (InMsg.seek p) now =
        ({ s with isRemoteAction := true, position := p },
         [Act.setSuppress, Act.seekToAct p, Act.toast "Synced",
          Act.scheduleClearSuppress 100])) := by
  constructor
  · intro h
    simp [handleMessage, getPosition, not_lt.mpr h]
  · intro h
    simp [handleMessage, getPosition, seekTo, h]

/-- Witness for `remote_seek_tolerance`: from the initial state (position 0),
an asserted position of 1 (drift 1 ≤ 3) is ignored, an asserted position of
10 (drift 10 > 3) produces the suppressed seek. -/
theorem remote_seek_tolerance_witness :
    handleMessage initState (InMsg.seek 1) 0 = (initState, []) ∧
    handleMessage initState (InMsg.seek 10) 0 =
      ({ initState with isRemoteAction := true, position := 10 },
       [Act.setSuppress, Act.seekToAct 10, Act.toast "Synced",
        Act.scheduleClearSuppress 100]) :=
  ⟨(remote_seek_tolerance initState 1 0).1 (by norm_num [initState, SYNC_TOLERANCE]),
   (remote_seek_tolerance initState 10 0).2 (by norm_num [initState, SYNC_TOLERANCE])⟩

/-- **C2.** Every inbound remote-play message sets the suppression flag, seeks
to the asserted position plus the latency estimate converted to seconds
(`latency / 1000`, the estimate being stored in milliseconds), then issues
play, and schedules the suppression flag to clear 100 ms later; in particular
with asserted position 5.0 and a measured one-way latency of 0.2 s
(latency = 200 ms) the adapter receives seek(5.2) followed by play(). -/
theorem remote_play_latency_compensation :
    (∀ (s : ClientState) (p : ℚ) (nick : Option String) (now : Nat),
      handleMessage s (InMsg.play p nick) now =
        ({ s with isRemoteAction := true, position := p + s.latency / 1000,
                  paused := false },
         [Act.setSuppress, Act.seekToAct (p + s.latency / 1000), Act.playAct,
          Act.toast (playToast nick), Act.scheduleClearSuppress 100])) ∧
    handleMessage { initState with latency := 200 } (InMsg.play 5 none) 0 =
      ({ initState with latency := 200, isRemoteAction := true,
                        position := 5.2, paused := false },
       [Act.setSuppress, Act.seekToAct 5.2, Act.playAct, Act.toast "Playing",
        Act.scheduleClearSuppress 100]) := by
  constructor
  · intro s p nick now
    rfl
  · have h52 : (5 : ℚ) + (200 : ℚ) / 1000 = 5.2 := by norm_num
    simp [handleMessage, playMedia, seekTo, playToast, truthy, initState, h52]

/-- **C9.** Every inbound remote-pause message sets the suppression flag,
issues pause before the seek, seeks to the asserted position with no latency
compensation, and schedules the suppression flag to clear 100 ms later. -/
theorem remote_pause_no_compensation (s : ClientState) (p : ℚ)
    (nick : Option String) (now : Nat) :
    handleMessage s (InMsg.pause p nick) now =
      ({ s with isRemoteAction := true, paused := true, position := p },
       [Act.setSuppress, Act.pauseAct, Act.seekToAct p,
        Act.toast (pauseToast nick), Act.scheduleClearSuppress 100]) := rfl

/-- **C10.** After every append to the chat transcript the transcript holds at
most 100 entries, and the result is exactly the appended list with the
overflow dropped from the front, i.e. oldest messages are removed first. -/
theorem chat_transcript_bounded (s : ClientState) (nick : Option String)
    (text : String) (isSys : Bool) :
    ((addChatMessage s nick text isSys).transcript.length ≤ 100) ∧
    ((addChatMessage s nick text isSys).transcript =
      (s.transcript ++ [({ nick := nick, text := text, isSystem := isSys } : ChatEntry)]).drop
        ((s.transcript ++ [({ nick := nick, text := text, isSystem := isSys } : ChatEntry)]).length - 100)) := by
  constructor
  · simp only [addChatMessage, trimTranscript_eq_drop, List.length_drop]
    omega
  · simp [addChatMessage, trimTranscript_eq_drop]

/-- **C3.** While the suppression flag is set, no locally-observed playback
event — the direct-file element's `play`, `pause` or `seeked` listeners, or
the controllable embedded player's state-change callback — produces an
outbound protocol message; in particular, after applying an inbound
remote-play instruction the post-state is still suppressed and the backend's
own started notification re-emits nothing. -/
theorem suppression_no_echo (s : ClientState) (nick : String) (now : Nat)
    (ytPos : ℚ) (e : YTState) (p : ℚ) (n : Option String) :
    (s.isRemoteAction = true →
      (videoOnPlay s nick).2 = [] ∧ (videoOnPause s nick).2 = [] ∧
      (videoOnSeeked s now).2 = [] ∧ onYTStateChange s e ytPos nick = []) ∧
    ((handleMessage s (InMsg.play p n) now).1.isRemoteAction = true ∧
      (videoOnPlay (handleMessage s (InMsg.play p n) now).1 nick).2 = [] ∧
      onYTStateChange (handleMessage s (InMsg.play p n) now).1 YTState.playing
        ytPos nick = []) := by
  constructor
  · intro h
    refine ⟨?_, ?_, ?_, ?_⟩ <;>
      simp [videoOnPlay, videoOnPause, videoOnSeeked, onYTStateChange, h]
  · refine ⟨rfl, ?_, ?_⟩ <;>
      simp [handleMessage, playMedia, seekTo, videoOnPlay, onYTStateChange]

/-- A state in the middle of the 100 ms suppression window. -/
def suppressedState : ClientState :=
  { initState with isRemoteAction := true, socketOpen := true }

/-- Witness for `suppression_no_echo`: in a suppressed state with an open
socket, none of the local event listeners emits anything. -/
theorem suppression_no_echo_witness :
    (videoOnPlay suppressedState "n").2 = [] ∧
    (videoOnPause suppressedState "n").2 = [] ∧
    (videoOnSeeked suppressedState 1000).2 = [] ∧
    onYTStateChange suppressedState YTState.playing 0 "n" = [] :=
  (suppression_no_echo suppressedState "n" 1000 0 YTState.playing 0 none).1 rfl

/-- **C4.** For every inbound sync-poll-response, when the role is non-host
and a current item is loaded: a drift beyond the 3.0 s tolerance produces a
suppressed seek to the asserted position; independently, an asserted playing
state differing from the local paused state produces the matching suppressed
play/pause; when neither condition holds, nothing happens. The six conjuncts
cover the drift dichotomy crossed with the play-state cases (`b = !s.paused`
being agreement between asserted and local play state). -/
theorem sync_response_drift_and_state (s : ClientState) (p : ℚ) (now : Nat)
    (hHost : s.isHost = false) (hCur : s.currentMedia.isSome = true) :
    (|s.position - p| > SYNC_TOLERANCE → s.paused = false →
      handleMessage s (InMsg.sync_response p false) now =
        ({ s with isRemoteAction := true, position := p, paused := true },
         [Act.setSuppress, Act.seekToAct p, Act.toast "Synced to host",
          Act.scheduleClearSuppress 100,
          Act.setSuppress, Act.pauseAct, Act.scheduleClearSuppress 100])) ∧
    (|s.position - p| > SYNC_TOLERANCE → s.paused = true →
      handleMessage s (InMsg.sync_response p true) now =
        ({ s with isRemoteAction := true, position := p, paused := false },
         [Act.setSuppress, Act.seekToAct p, Act.toast "Synced to host",
          Act.scheduleClearSuppress 100,
          Act.setSuppress, Act.playAct, Act.scheduleClearSuppress 100])) ∧
    (|s.position - p| > SYNC_TOLERANCE → ∀ b, b = !s.paused →
      handleMessage s (InMsg.sync_response p b) now =
        ({ s with isRemoteAction := true, position := p },
         [Act.setSuppress, Act.seekToAct p, Act.toast "Synced to host",
          Act.scheduleClearSuppress 100])) ∧
    (|s.position - p| ≤ SYNC_TOLERANCE → s.paused = false →
      handleMessage s (InMsg.sync_response p false) now =
        ({ s with isRemoteAction := true, paused := true },
         [Act.setSuppress, Act.pauseAct, Act.scheduleClearSuppress 100])) ∧
    (|s.position - p| ≤ SYNC_TOLERANCE → s.paused = true →
      handleMessage s (InMsg.sync_response p true) now =
        ({ s with isRemoteAction := true, paused := false },
         [Act.setSuppress, Act.playAct, Act.scheduleClearSuppress 100])) ∧
    (|s.position - p| ≤ SYNC_TOLERANCE → ∀ b, b = !s.paused →
      handleMessage s (InMsg.sync_response p b) now = (s, [])) := by
  refine ⟨?_, ?_, ?_, ?_, ?_, ?_⟩
  · intro h hp
    simp [handleMessage, getPosition, isPaused, seekTo, playMedia, pauseMedia,
      hHost, hCur, h, hp]
  · intro h hp
    simp [handleMessage, getPosition, isPaused, seekTo, playMedia, pauseMedia,
      hHost, hCur, h, hp]
  · intro h b hb
    subst hb
    cases hp : s.paused <;>
      simp [handleMessage, getPosition, isPaused, seekTo, playMedia, pauseMedia,
        hHost, hCur, h, hp]
  · intro h hp
    simp [handleMessage, getPosition, isPaused, seekTo, playMedia, pauseMedia,
      hHost, hCur, not_lt.mpr h, hp]
  · intro h hp
    simp [handleMessage, getPosition, isPaused, seekTo, playMedia, pauseMedia,
      hHost, hCur, not_lt.mpr h, hp]
  · intro h b hb
    subst hb
    cases hp : s.paused <;>
      simp [handleMessage, getPosition, isPaused, seekTo, playMedia, pauseMedia,
        hHost, hCur, not_lt.mpr h, hp]

/-- A non-host state with a loaded direct-file item, playing at position 10. -/
def nonHostPlayingState : ClientState :=
  { initState with
      socketOpen := true
      currentMedia := some { mtype := MediaType.direct, idOrUrl := "u", display := none }
      position := 10
      paused := false }

/-- Witness for `sync_response_drift_and_state`: the spec scenario — local
position 10.0 while playing, inbound position 15.0 with playing = false —
yields a suppressed seek to 15.0 and a suppressed pause. -/
theorem sync_response_witness :
    handleMessage nonHostPlayingState (InMsg.sync_response 15 false) 0 =
      ({ nonHostPlayingState with isRemoteAction := true, position := 15,
                                  paused := true },
       [Act.setSuppress, Act.seekToAct 15, Act.toast "Synced to host",
        Act.scheduleClearSuppress 100,
        Act.setSuppress, Act.pauseAct, Act.scheduleClearSuppress 100]) :=
  (sync_response_drift_and_state nonHostPlayingState 15 0 (by rfl) (by rfl)).1
    (by norm_num [nonHostPlayingState, initState, SYNC_TOLERANCE]) (by rfl)

/-- The invariant transfers along any step that preserves the timer slot and
the role flag. -/
theorem cadenceOK_of_fields (s X : ClientState) (h : cadenceOK s)
    (h1 : X.syncTimer = s.syncTimer) (h2 : X.isHost = s.isHost) :
    cadenceOK X := by
  intro b hb
  rw [h2]
  exact h b (h1 ▸ hb)

/-- The invariant holds outright in any state whose timer slot was just
re-armed to match the role flag. -/
theorem cadenceOK_of_rearmed (X : ClientState)
    (h1 : X.syncTimer = some X.isHost) : cadenceOK X := by
  intro b hb
  rw [h1] at hb
  exact (Option.some.inj hb).symm

/-- Every event-loop step preserves the cadence invariant. -/
theorem cadence_step (s : ClientState) (e : Event) (h : cadenceOK s) :
    cadenceOK (step s e) := by
  cases e with
  | opened nick now => exact cadenceOK_of_fields s _ h rfl rfl
  | closed => intro b hb; simp [step, onSocketClose] at hb
  | errored => exact cadenceOK_of_fields s _ h rfl rfl
  | reconnect raw =>
      refine cadenceOK_of_fields s _ h ?_ ?_ <;>
        · simp only [step, connect]
          split_ifs <;> rfl
  | inbound m now =>
      cases m with
      | pong t => exact cadenceOK_of_fields s _ h rfl rfl
      | state v q hf cur pos pl =>
          refine cadenceOK_of_rearmed _ ?_
          rcases cur with _ | m1
          · simp only [step, handleMessage, startSyncIntervals,
              updateHostIndicator, seekTo, playMedia]
          · simp only [step, handleMessage, startSyncIntervals,
              updateHostIndicator, seekTo, playMedia]
            split_ifs <;> rfl
      | host_update hf =>
          by_cases hch : s.isHost = hf
          · refine cadenceOK_of_fields s _ h ?_ ?_ <;>
            · simp only [step, handleMessage, updateHostIndicator]
              rw [if_neg (by simp [hch])]
              split_ifs <;> simp [hch]
          · refine cadenceOK_of_rearmed _ ?_
            simp only [step, handleMessage, updateHostIndicator,
              startSyncIntervals]
            rw [if_pos hch]
      | load q cur =>
          refine cadenceOK_of_fields s _ h ?_ ?_ <;>
            rcases cur with _ | m1 <;> rfl
      | queue_update q nick =>
          refine cadenceOK_of_fields s _ h ?_ ?_ <;>
          · simp only [step, handleMessage, addChatMessage]
            split_ifs <;> rfl
      | play p nick => exact cadenceOK_of_fields s _ h rfl rfl
      | pause p nick => exact cadenceOK_of_fields s _ h rfl rfl
      | seek p =>
          refine cadenceOK_of_fields s _ h ?_ ?_ <;>
          · simp only [step, handleMessage, seekTo, getPosition]
            split_ifs <;> rfl
      | sync_response p pl =>
          refine cadenceOK_of_fields s _ h ?_ ?_ <;>
          · simp only [step, handleMessage, seekTo, getPosition, isPaused,
              playMedia, pauseMedia]
            split_ifs <;> rfl
      | viewers c => exact cadenceOK_of_fields s _ h rfl rfl
      | chat nick text => exact cadenceOK_of_fields s _ h rfl rfl
      | system text => exact cadenceOK_of_fields s _ h rfl rfl

/-- The cadence invariant holds along every run. -/
theorem cadence_run (evs : List Event) (s : ClientState) (h : cadenceOK s) :
    cadenceOK (run s evs) := by
  induction evs generalizing s with
  | nil => exact h
  | cons e l ih => exact ih (step s e) (cadence_step s e h)

/-- The initial state has no cadence timer, so the invariant holds. -/
theorem cadence_initial : cadenceOK initState := by
  intro b hb
  simp [initState] at hb

/-- **C5.** At every state reachable from the initial one, the single cadence
timer slot, when occupied, matches the current role (host reporting exactly
when host, non-host polling otherwise) — the source keeps at most one timer
because the one `syncInterval` handle is always cleared before being
replaced; and a role change from host to non-host re-arms the cadence,
leaving the non-host polling timer, never the host-reporting one. -/
theorem cadence_matches_role :
    (∀ evs, cadenceOK (run initState evs)) ∧
    (∀ (s : ClientState) (now : Nat), s.isHost = true →
      (handleMessage s (InMsg.host_update false) now).1.syncTimer = some false ∧
      (handleMessage s (InMsg.host_update false) now).1.isHost = false) := by
  constructor
  · intro evs
    exact cadence_run evs initState cadence_initial
  · intro s now hs
    constructor <;>
      simp [handleMessage, updateHostIndicator, startSyncIntervals, hs] <;>
      split_ifs <;> rfl

/-- Witness for `cadence_matches_role`: a concrete run, and the host-to-nonhost
switch applied to a concrete host state. -/
theorem cadence_matches_role_witness :
    cadenceOK (run initState [Event.inbound (InMsg.host_update true) 0]) ∧
    ((handleMessage { initState with isHost := true }
        (InMsg.host_update false) 0).1.syncTimer = some false ∧
     (handleMessage { initState with isHost := true }
        (InMsg.host_update false) 0).1.isHost = false) :=
  ⟨cadence_matches_role.1 [Event.inbound (InMsg.host_update true) 0],
   cadence_matches_role.2 { initState with isHost := true } 0 (by rfl)⟩

/-- A length-6 value produced by the room-input sanitizer always satisfies
the 6-character uppercase-alphanumeric format. -/
theorem sanitizeRoomInput_valid (s0 : String)
    (hl : (sanitizeRoomInput s0).length = 6) :
    isValidRoomCode (sanitizeRoomInput s0) = true := by
  simp only [isValidRoomCode, sanitizeRoomInput] at hl ⊢
  rw [Bool.and_eq_true]
  constructor
  · simpa using hl
  · rw [List.all_eq_true]
    intro c hc
    have hc1 : c ∈ (s0.toList.map Char.toUpper).filter isUpperAlnum := by
      have := List.take_subset 6 ((s0.toList.map Char.toUpper).filter isUpperAlnum)
      exact this (by simpa using hc)
    exact (List.mem_filter.mp hc1).2

/-- **C6 counterexample.** `connect` checks only the length of the trimmed
code: the 6-character input "ab!c?d" violates the uppercase-alphanumeric
format, yet `connect` does not reject it — it shows the connecting status
(not an error) and attempts to open a connection for it. -/
theorem connect_format_counterexample :
    isValidRoomCode "ab!c?d" = false ∧
    (connect initState "ab!c?d").2 = [Act.openConnection (jsTrim "ab!c?d")] ∧
    jsTrim "ab!c?d" = "ab!c?d" ∧
    (connect initState "ab!c?d").1.status.kind = StatusKind.disconnected := by
  refine ⟨by decide, ?_, by decide, ?_⟩ <;> decide

/-- **C6 (amended).** `connect` rejects — visible error state, no actions —
exactly when the trimmed room code is not 6 characters long; for any
length-6 code (and the room input field separately sanitizes its value to at
most 6 uppercase alphanumerics, see `sanitizeRoomInput_valid`, so codes
reaching `connect` through the UI satisfy the format) any prior channel is
closed before the new connection is opened. -/
theorem connect_length_gate (s : ClientState) (raw : String) :
    ((jsTrim raw).length ≠ 6 →
      connect s raw =
        ({ s with status := ⟨"Enter 6-char code", .error⟩ }, [])) ∧
    ((jsTrim raw).length = 6 →
      connect s raw =
        ({ s with status := ⟨"Connecting...", .disconnected⟩,
                  socketPresent := true, socketOpen := false },
         (if s.socketPresent then [Act.closeSocket] else []) ++
           [Act.openConnection (jsTrim raw)])) := by
  constructor <;> intro hL <;> simp [connect, hL]

/-- Witness for `connect_length_gate`: "AB" (length 2) is rejected;
"ABC123" opens a connection, with no prior channel to close. -/
theorem connect_length_gate_witness :
    connect initState "AB" =
      ({ initState with status := ⟨"Enter 6-char code", .error⟩ }, []) ∧
    connect initState "ABC123" =
      ({ initState with status := ⟨"Connecting...", .disconnected⟩,
                        socketPresent := true, socketOpen := false },
       [Act.openConnection (jsTrim "ABC123")]) :=
  ⟨(connect_length_gate initState "AB").1 (by decide),
   (connect_length_gate initState "ABC123").2 (by decide)⟩

/-- A connected host state with both timers running. -/
def activeHostState : ClientState :=
  { initState with
      socketOpen := true
      pingActive := true
      syncTimer := some true
      isHost := true }

/-- **C7 counterexample.** On a channel error the engine does NOT clear the
heartbeat timer or the cadence timer and does not reset the role: the error
callback only sets the connection-failed status. -/
theorem on_error_keeps_timers :
    (onSocketError activeHostState).1.pingActive = true ∧
    (onSocketError activeHostState).1.syncTimer = some true ∧
    (onSocketError activeHostState).1.isHost = true ∧
    (onSocketError activeHostState).1.status =
      ⟨"Connection failed", StatusKind.error⟩ :=
  ⟨rfl, rfl, rfl, rfl⟩

/-- **C7 (amended).** On channel close the engine clears the heartbeat timer
and the cadence timer, resets the role to non-host and shows the
disconnected state; on channel error it only surfaces the connection-failed
error state (timers and role are cleared by the close that follows a failed
connection); neither handler performs any outward action — in particular no
automatic reconnection is attempted. -/
theorem close_error_teardown (s : ClientState) :
    onSocketClose s =
      ({ s with socketOpen := false, pingActive := false, syncTimer := none,
                isHost := false, status := ⟨"Disconnected", .disconnected⟩ },
       []) ∧
    onSocketError s =
      ({ s with status := ⟨"Connection failed", .error⟩ }, []) :=
  ⟨rfl, rfl⟩

/-- **C8 counterexample.** With the suppression flag clear, the channel open,
and exactly 300 ms elapsed since the previous forwarded seek (so "at least
300 ms have elapsed" holds), the seek is NOT forwarded: the debounce is the
strict comparison `now - lastSentSeek > 300`. -/
theorem seek_debounce_boundary :
    ({ initState with socketOpen := true } : ClientState).isRemoteAction
        = false ∧
    (300 : Nat) -
        ({ initState with socketOpen := true } : ClientState).lastSentSeek
        = 300 ∧
    (videoOnSeeked { initState with socketOpen := true } 300).2 = [] :=
  ⟨rfl, rfl, rfl⟩

/-- **C8 (amended).** With the channel open, a locally-originated seek on the
direct-file backend is forwarded if and only if the suppression flag is
clear and MORE than 300 ms have elapsed since the previous forwarded seek; a
forwarded seek carries the current position and records its send time; of
two local seeks less than 300 ms apart, only the first is forwarded. -/
theorem seek_debounce (s : ClientState) (now : Nat)
    (hOpen : s.socketOpen = true) :
    (((videoOnSeeked s now).2 ≠ []) ↔
      (s.isRemoteAction = false ∧ now - s.lastSentSeek > 300)) ∧
    (s.isRemoteAction = false → now - s.lastSentSeek > 300 →
      videoOnSeeked s now =
        ({ s with lastSentSeek := now }, [OutMsg.seek (getPosition s)])) ∧
    (∀ t2, (videoOnSeeked s now).2 ≠ [] → t2 - now < 300 →
      (videoOnSeeked (videoOnSeeked s now).1 t2).2 = []) := by
  refine ⟨?_, ?_, ?_⟩
  · by_cases hd : now - s.lastSentSeek > 300 <;>
      cases hra : s.isRemoteAction <;>
      simp [videoOnSeeked, hOpen, hra, hd]
  · intro h1 h2
    simp [videoOnSeeked, hOpen, h1, h2]
  · intro t2 hne hlt
    cases hra : s.isRemoteAction with
    | true => simp [videoOnSeeked, hra] at hne
    | false =>
        by_cases hd : now - s.lastSentSeek > 300
        · have hstop : ¬ (t2 - now > 300) := by omega
          simp [videoOnSeeked, hOpen, hra, hd, hstop]
        · simp [videoOnSeeked, hd] at hne

/-- Witness for `seek_debounce`: from a fresh open connection, a local seek
at t = 1000 ms (elapsed 1000 > 300) is forwarded with the current
position. -/
theorem seek_debounce_witness :
    videoOnSeeked { initState with socketOpen := true } 1000 =
      ({ initState with socketOpen := true, lastSentSeek := 1000 },
       [OutMsg.seek 0]) :=
  (seek_debounce { initState with socketOpen := true } 1000 (by rfl)).2.1
    (by rfl) (by decide)

end SyncStream
